import Mathlib

/-!
Verification of the HydraGPT multi-provider chat client, centred on the
Hugging Face model-discovery cache (`app.py` / `list_hf_providers_models.py`),
the completion adapters (`llm_providers.py` / `app.py`), the settings store
(`load_config`) and the prompt handler.  `app.py` is self-contained: it
duplicates the definitions of the helper modules, and the app imports none of
them, so `app.py` is the live code; the duplicated bodies are identical in
control flow where both exist.

Conventions of the shallow embedding:
* timestamps are integers (seconds); the Python code compares
  `datetime.utcnow() - fetched_at < timedelta(hours=24)`, which becomes
  `now - fetched_at < 86400` with a strict `<`;
* a Python function that can raise is embedded as a function into
  `Except PyError _`; a raised exception is `Except.error`;
* JSON documents on disk are embedded as inductive states: the file may be
  absent, may fail to parse (`json.load` raises), or may hold a document
  whose individual fields may in turn be missing or malformed.
-/

namespace HydraGPT

/-- Exceptions the embedded Python fragments can raise. -/
inductive PyError where
  | jsonDecodeError
  | valueError
  | keyError
deriving DecidableEq, Repr

/-- One `(provider, model)` pair of the cache document
`{"provider": ..., "model": ...}`. -/
structure Pair where
  provider : String
  model : String
deriving DecidableEq, Repr

/-- The `fetched_at` field of the cache document: absent (Python substitutes
the epoch string `1970-01-01T00:00:00` via `data.get`), unparseable
(`datetime.fromisoformat` raises `ValueError`), or a parsed timestamp. -/
inductive TimeField where
  | missing
  | malformed
  | val (t : Int)
deriving DecidableEq, Repr

/-- A parsed cache document: its `fetched_at` field and its `pairs` field
(`none` when the key is absent, in which case `data["pairs"]` raises
`KeyError`). -/
structure CacheDoc where
  fetched_at : TimeField
  pairs : Option (List Pair)
deriving DecidableEq, Repr

/-- State of the on-disk cache file `hf_provider_model_cache.json`:
absent, present but not valid JSON (`json.load` raises), or a parsed
document. -/
inductive CacheFileState where
  | absent
  | malformed
  | doc (d : CacheDoc)
deriving DecidableEq, Repr

/-- `CACHE_TTL_HOURS = 24`, in seconds. -/
def ttlSeconds : Int := 86400

/-- The timestamp parsed from the default string `1970-01-01T00:00:00`. -/
def epochTime : Int := 0

/-- `load_hf_provider_model_cache` (`app.py` lines 72-79,
`list_hf_providers_models.py` lines 29-36): if the cache file exists, parse
it, read `fetched_at` (defaulting to the epoch), and when
`utcnow() - fetched_at < timedelta(hours=24)` return `data["pairs"]`;
in every other case return `None`. -/
def load_hf_provider_model_cache (fs : CacheFileState) (now : Int) :
    Except PyError (Option (List Pair)) :=
  match fs with
  | .absent => .ok none
  | .malformed => .error .jsonDecodeError
  | .doc d =>
    match d.fetched_at with
    | .malformed => .error .valueError
    | .missing =>
      if now - epochTime < ttlSeconds then
        match d.pairs with
        | none => .error .keyError
        | some ps => .ok (some ps)
      else .ok none
    | .val t =>
      if now - t < ttlSeconds then
        match d.pairs with
        | none => .error .keyError
        | some ps => .ok (some ps)
      else .ok none

/-- System state visible to `ensure_hf_provider_model_cache`: the cache file
plus the number of discovery-sweep threads currently in flight (each
`threading.Thread(...).start()` adds one; a sweep that is still running has
not yet been removed). -/
structure SysState where
  cache : CacheFileState
  sweepsInFlight : Nat
deriving DecidableEq, Repr

/-- `ensure_hf_provider_model_cache` (`app.py` lines 81-85): load the cache;
when the result is `None` start a new background sweep thread
(unconditionally - the source keeps no in-flight flag); return the loaded
value. -/
def ensure_hf_provider_model_cache (s : SysState) (now : Int) :
    Except PyError (Option (List Pair) × SysState) :=
  match load_hf_provider_model_cache s.cache now with
  | .error e => .error e
  | .ok pairs =>
    if pairs = none then
      .ok (pairs, { s with sweepsInFlight := s.sweepsInFlight + 1 })
    else
      .ok (pairs, s)

/-- Result of one network request in the sweep, already JSON-decoded:
`err` covers a failed HTTP request and a body that fails to decode. -/
inductive NetResult (α : Type) where
  | err (msg : String)
  | ok (a : α)
deriving DecidableEq, Repr

/-- The accumulation loop of `fetch_and_cache_hf_provider_models`
(`app.py` lines 61-68): for each candidate model id, fetch its
`inferenceProviderMapping` and append one pair per sub-provider key, in
mapping order; a failed metadata request raises, aborting the whole loop
(`none`). -/
def sweepLoop (meta : String → NetResult (List String)) :
    List String → List Pair → Option (List Pair)
  | [], acc => some acc
  | id :: rest, acc =>
    match meta id with
    | .err _ => none
    | .ok provs => sweepLoop meta rest (acc ++ provs.map fun p => ⟨p, id⟩)

/-- `fetch_and_cache_hf_provider_models` (`app.py` lines 56-70): request the
candidate listing, run the accumulation loop, and only on full success write
`{"fetched_at": utcnow(), "pairs": pairs}` over the cache file; any failure
raises before the write, leaving the prior file untouched. -/
def fetch_and_cache_hf_provider_models (listing : NetResult (List String))
    (meta : String → NetResult (List String)) (completionTime : Int)
    (cache : CacheFileState) : CacheFileState :=
  match listing with
  | .err _ => cache
  | .ok ids =>
    match sweepLoop meta ids [] with
    | none => cache
    | some pairs => .doc ⟨.val completionTime, some pairs⟩

/-- `get_hf_provider_model_pairs` (`app.py` lines 143-147): call
`ensure_hf_provider_model_cache`; a truthy (non-`None`, non-empty) result is
returned as tuples, anything falsy yields the static fallback pair. -/
def get_hf_provider_model_pairs (s : SysState) (now : Int) :
    Except PyError (List (String × String) × SysState) :=
  match ensure_hf_provider_model_cache s now with
  | .error e => .error e
  | .ok (some (p :: ps), s2) =>
    .ok ((p :: ps).map (fun q => (q.provider, q.model)), s2)
  | .ok (some [], s2) =>
    .ok ([("hf-inference", "meta-llama/Meta-Llama-3-8B-Instruct")], s2)
  | .ok (none, s2) =>
    .ok ([("hf-inference", "meta-llama/Meta-Llama-3-8B-Instruct")], s2)

/-! ### Completion adapters (`app.py` lines 201-233, `llm_providers.py`) -/

/-- The OpenAI-style reply body, along the access path
`['choices'][0]['message']['content']`: each level may be missing. -/
structure OAMessage where
  content : Option String
deriving DecidableEq, Repr

/-- One element of the `choices` array. -/
structure OAChoice where
  message : Option OAMessage
deriving DecidableEq, Repr

/-- A decoded OpenAI-style body; `choices` may be missing. -/
structure OABody where
  choices : Option (List OAChoice)
deriving DecidableEq, Repr

/-- The Gemini reply body, along the access path
`['candidates'][0]['content']['parts'][0]['text']`. -/
structure GemPart where
  text : Option String
deriving DecidableEq, Repr

/-- The `content` object of a Gemini candidate. -/
structure GemContent where
  parts : Option (List GemPart)
deriving DecidableEq, Repr

/-- One element of the `candidates` array. -/
structure GemCandidate where
  content : Option GemContent
deriving DecidableEq, Repr

/-- A decoded Gemini body; `candidates` may be missing. -/
structure GemBody where
  candidates : Option (List GemCandidate)
deriving DecidableEq, Repr

/-- One HTTP interaction as the adapter observes it: either `requests.post`
itself raises (`exn`, with the exception text), or a response arrives with a
status code, reason phrase, request url, raw text, and - when the raw text is
valid JSON - a decoded body (`none` models `response.json()` raising). -/
inductive HttpInteraction (β : Type) where
  | exn (msg : String)
  | resp (status : Nat) (reason : String) (url : String) (text : String)
      (body : Option β)
deriving DecidableEq, Repr

/-- `str(e)` of the `json.JSONDecodeError` raised by `response.json()` on a
non-JSON body. -/
def jsonDecodeErrMsg : String := "Expecting value: line 1 column 1 (char 0)"

/-- `str(e)` of the `requests.HTTPError` raised by
`response.raise_for_status()` for a 4xx/5xx status. -/
def raiseForStatusMsg (status : Nat) (reason url : String) : String :=
  toString status ++
    (if status < 500 then " Client Error: " else " Server Error: ") ++
    reason ++ " for url: " ++ url

/-- Extraction `response.json()['choices'][0]['message']['content']`; a
missing key raises `KeyError`, an empty array raises `IndexError`. -/
def extractOpenAI : OABody → Except String String
  | ⟨none⟩ => .error "KeyError: choices"
  | ⟨some []⟩ => .error "list index out of range"
  | ⟨some (c :: _)⟩ =>
    match c.message with
    | none => .error "KeyError: message"
    | some m =>
      match m.content with
      | none => .error "KeyError: content"
      | some txt => .ok txt

/-- Extraction `['candidates'][0]['content']['parts'][0]['text']`. -/
def extractGemini : GemBody → Except String String
  | ⟨none⟩ => .error "KeyError: candidates"
  | ⟨some []⟩ => .error "list index out of range"
  | ⟨some (c :: _)⟩ =>
    match c.content with
    | none => .error "KeyError: content"
    | some ct =>
      match ct.parts with
      | none => .error "KeyError: parts"
      | some [] => .error "list index out of range"
      | some (p :: _) =>
        match p.text with
        | none => .error "KeyError: text"
        | some txt => .ok txt

/-- `call_openai` (`app.py` lines 201-215): post, `raise_for_status`, extract
`choices[0].message.content`; every exception is caught and rendered as
`"OpenAI Error: {str(e)}\nResponse: {getattr(e, 'response', None)}"`.  The
function returns a string on every interaction - it never raises. -/
def call_openai (i : HttpInteraction OABody) : String :=
  match i with
  | .exn msg => "OpenAI Error: " ++ msg ++ "\nResponse: None"
  | .resp status reason url _text body =>
    if 400 ≤ status ∧ status < 600 then
      "OpenAI Error: " ++ raiseForStatusMsg status reason url ++
        "\nResponse: <Response [" ++ toString status ++ "]>"
    else
      match body with
      | none => "OpenAI Error: " ++ jsonDecodeErrMsg ++ "\nResponse: None"
      | some b =>
        match extractOpenAI b with
        | .ok txt => txt
        | .error m => "OpenAI Error: " ++ m ++ "\nResponse: None"

/-- `call_gemini` (`app.py` lines 217-233): post; a status other than 200 is
reported as `"Gemini Error: {status} {reason}\nResponse: {text}"`; any raised
exception is caught and rendered as `"Gemini Exception: {str(e)}"`.  The
function returns a string on every interaction - it never raises. -/
def call_gemini (i : HttpInteraction GemBody) : String :=
  match i with
  | .exn msg => "Gemini Exception: " ++ msg
  | .resp status reason _url text body =>
    if status ≠ 200 then
      "Gemini Error: " ++ toString status ++ " " ++ reason ++
        "\nResponse: " ++ text
    else
      match body with
      | none => "Gemini Exception: " ++ jsonDecodeErrMsg
      | some b =>
        match extractGemini b with
        | .ok txt => txt
        | .error m => "Gemini Exception: " ++ m

/-! ### Settings store and prompt handler (`app.py` lines 37-54, 298-319) -/

/-- The settings document: the `selected_models` mapping, provider id to
model id (plus the `HuggingFaceProvider` sub-provider key). -/
structure Config where
  selected_models : List (String × String)
deriving DecidableEq, Repr

/-- The hardcoded default document of `load_config` (`app.py` lines 41-50). -/
def defaultSelectedModels : List (String × String) :=
  [("OpenAI", "gpt-4.1-mini"),
   ("Gemini", "gemini-2.0-flash"),
   ("Anthropic", "claude-3-7-sonnet-20250219"),
   ("Grok", "grok-3-latest"),
   ("HuggingFace", "meta-llama/Meta-Llama-3-8B-Instruct"),
   ("HuggingFaceProvider", "hf-inference")]

/-- State of the on-disk settings file `hydragpt_config.json`. -/
inductive ConfigFileState where
  | absent
  | malformed
  | doc (d : Config)
deriving DecidableEq, Repr

/-- `load_config` (`app.py` lines 37-50): parse the file when it exists
(`json.load` raises on a malformed document), otherwise return the hardcoded
default.  (`config.py` lines 25-36 duplicates this control flow with a
four-provider default, but the app never imports it.) -/
def load_config : ConfigFileState → Except PyError Config
  | .absent => .ok ⟨defaultSelectedModels⟩
  | .malformed => .error .jsonDecodeError
  | .doc d => .ok d

/-- The static provider registry `PROVIDERS` (`app.py` lines 10-31),
restricted to the credential-lookup keys the prompt handler reads. -/
def PROVIDERS : List (String × String) :=
  [("OpenAI", "OPENAI_API_KEY"),
   ("Gemini", "GEMINI_API_KEY"),
   ("Anthropic", "ANTHROPIC_API_KEY"),
   ("Grok", "XAI_API_KEY"),
   ("HuggingFace", "HF_TOKEN")]

/-- One conversation turn of `st.session_state['messages']`. -/
structure Turn where
  role : String
  content : String
  provider : Option String
deriving DecidableEq, Repr

/-- Observable outcome of one prompt submission: the conversation log after
the handler, the `st.error` text if one was shown, and whether an HTTP
request was issued. -/
structure HandlerResult where
  messages : List Turn
  errorShown : Option String
  httpIssued : Bool
deriving DecidableEq, Repr

/-- The `st.error` text of `app.py` line 301. -/
def missingKeyMsg (provider env : String) : String :=
  "API key for " ++ provider ++ " not found. Please set the " ++ env ++
    " environment variable."

/-- The prompt handler (`app.py` lines 298-319) for a given provider with
credential-lookup key `env`: `api_key = os.getenv(env)`; when the key is
falsy (`None` or the empty string) show the missing-variable error and do
nothing else; otherwise append the user turn, call the adapter (one HTTP
request) and append its string result as a provider-tagged assistant turn. -/
def handle_prompt (provider env : String) (apiKey : Option String)
    (prompt : String) (msgs : List Turn) (adapterResp : String) :
    HandlerResult :=
  if apiKey = none ∨ apiKey = some "" then
    ⟨msgs, some (missingKeyMsg provider env), false⟩
  else
    ⟨msgs ++ [⟨"user", prompt, none⟩, ⟨"assistant", adapterResp, some provider⟩],
      none, true⟩

/-! ### Helper lemmas about the sweep loop -/

/-- When every metadata request succeeds, the accumulation loop appends, to
its accumulator, one pair per (sub-provider, model) combination in first-seen
order. -/
theorem sweepLoop_ok (provs : String → List String) (ids : List String)
    (acc : List Pair) :
    sweepLoop (fun id => .ok (provs id)) ids acc
      = some (acc ++ ids.flatMap fun id => (provs id).map fun p => ⟨p, id⟩) := by
  induction ids generalizing acc with
  | nil => simp [sweepLoop]
  | cons id rest ih => simp [sweepLoop, ih, List.append_assoc]

/-- A failed metadata request for any candidate in the listing aborts the
whole accumulation loop. -/
theorem sweepLoop_err (meta : String → NetResult (List String)) :
    ∀ (ids : List String) (acc : List Pair),
      (∃ id ∈ ids, ∃ m, meta id = .err m) → sweepLoop meta ids acc = none := by
  intro ids
  induction ids with
  | nil =>
    intro acc h
    rcases h with ⟨id, hmem, _⟩
    cases hmem
  | cons hd rest ih =>
    intro acc h
    cases hmeta : meta hd with
    | err m => simp [sweepLoop, hmeta]
    | ok provs =>
      rcases h with ⟨id, hmem, m, herr⟩
      rcases List.mem_cons.mp hmem with heq | hmem2
      · subst heq
        rw [hmeta] at herr
        cases herr
      · simp only [sweepLoop, hmeta]
        exact ih _ ⟨id, hmem2, m, herr⟩

/-! ### Claim theorems -/

/-- Claim C1: for every well-formed on-disk cache record,
`load_hf_provider_model_cache` returns exactly the persisted pairs in stored
order when `now - fetched_at` is strictly below 24 hours, returns `None` when
`fetched_at ≤ now - 24h` even though a pairs list exists on disk, and returns
`None` when no record exists. -/
theorem hf_cache_ttl_c1 (t now : Int) (ps : List Pair) :
    (now - t < ttlSeconds →
      load_hf_provider_model_cache (.doc ⟨.val t, some ps⟩) now = .ok (some ps))
    ∧ (ttlSeconds ≤ now - t →
      load_hf_provider_model_cache (.doc ⟨.val t, some ps⟩) now = .ok none)
    ∧ load_hf_provider_model_cache .absent now = .ok none := by
  refine ⟨fun h => ?_, fun h => ?_, rfl⟩
  · simp [load_hf_provider_model_cache, h]
  · simp [load_hf_provider_model_cache, not_lt.mpr h]

/-- Witness for C1 at a fresh and at a stale concrete record. -/
theorem hf_cache_ttl_c1_witness :
    load_hf_provider_model_cache (.doc ⟨.val 0, some [⟨"A", "m1"⟩]⟩) 100
      = .ok (some [⟨"A", "m1"⟩])
    ∧ load_hf_provider_model_cache (.doc ⟨.val 0, some [⟨"A", "m1"⟩]⟩) 100000
      = .ok none :=
  ⟨(hf_cache_ttl_c1 0 100 [⟨"A", "m1"⟩]).1 (by decide),
   (hf_cache_ttl_c1 0 100000 [⟨"A", "m1"⟩]).2.1 (by decide)⟩

/-- Claim C2 (failing part, evaluated at the failing input): with the cache
file absent, a first `ensure_hf_provider_model_cache` call schedules a sweep,
and a second call made before that sweep completes (cache still absent, first
thread still in flight) schedules a second concurrent sweep - the source
keeps no in-flight guard, contradicting the claim that a second call must not
schedule a second sweep. -/
theorem ensure_fresh_double_sweep_c2 :
    ensure_hf_provider_model_cache ⟨.absent, 0⟩ 0 = .ok (none, ⟨.absent, 1⟩)
    ∧ ensure_hf_provider_model_cache ⟨.absent, 1⟩ 0 = .ok (none, ⟨.absent, 2⟩) :=
  ⟨rfl, rfl⟩

/-- Claim C3: a sweep in which the listing and every metadata request succeed
persists a record whose pairs are exactly the discovered (sub-provider,
model) combinations in first-seen order with `fetched_at` the completion
time, wholesale replacing any prior record; in particular discovering
`[(A,m1),(B,m1),(A,m2)]` in that order persists exactly that list. -/
theorem sweep_persists_pairs_c3 :
    (∀ (provs : String → List String) (ids : List String) (t : Int)
        (cache : CacheFileState),
      fetch_and_cache_hf_provider_models (.ok ids) (fun id => .ok (provs id))
          t cache
        = .doc ⟨.val t,
            some (ids.flatMap fun id => (provs id).map fun p => ⟨p, id⟩)⟩)
    ∧ (∀ (t : Int) (cache : CacheFileState),
      fetch_and_cache_hf_provider_models (.ok ["m1", "m2"])
          (fun id => .ok (if id = "m1" then ["A", "B"] else ["A"])) t cache
        = .doc ⟨.val t, some [⟨"A", "m1"⟩, ⟨"B", "m1"⟩, ⟨"A", "m2"⟩]⟩) := by
  constructor
  · intro provs ids t cache
    simp [fetch_and_cache_hf_provider_models, sweepLoop_ok]
  · intro t cache
    rfl

/-- Claim C4: a sweep in which the listing request fails, or the metadata
request of any listed candidate fails (network or JSON decoding), writes
nothing: the prior cache file state is returned unchanged. -/
theorem sweep_failure_preserves_cache_c4 (listing : NetResult (List String))
    (meta : String → NetResult (List String)) (t : Int)
    (cache : CacheFileState)
    (h : (∃ msg, listing = .err msg)
      ∨ (∃ ids, listing = .ok ids ∧ ∃ id ∈ ids, ∃ m, meta id = .err m)) :
    fetch_and_cache_hf_provider_models listing meta t cache = cache := by
  rcases h with ⟨msg, rfl⟩ | ⟨ids, rfl, herr⟩
  · rfl
  · simp [fetch_and_cache_hf_provider_models, sweepLoop_err meta ids [] herr]

/-- Witness for C4: a sweep whose single metadata request fails leaves a
prior record untouched. -/
theorem sweep_failure_preserves_cache_c4_witness :
    fetch_and_cache_hf_provider_models (.ok ["m1"]) (fun _ => .err "boom") 0
        (.doc ⟨.val 0, some [⟨"A", "m0"⟩]⟩)
      = .doc ⟨.val 0, some [⟨"A", "m0"⟩]⟩ :=
  sweep_failure_preserves_cache_c4 _ _ 0 _
    (Or.inr ⟨["m1"], rfl, "m1", by simp, "boom", rfl⟩)

/-- Claim C5: for every failing interaction - a 4xx/5xx status (the statuses
`raise_for_status` treats as errors; for Gemini any such status is also
`≠ 200`) or any raised exception - `call_openai` and `call_gemini` return
normally (they are total functions into `String`) with a string that starts
with the provider error prefix and contains the status or exception
detail. -/
theorem adapter_error_strings_c5 (status : Nat) (h4 : 400 ≤ status)
    (h6 : status < 600) (msg reason url text : String)
    (obody : Option OABody) (gbody : Option GemBody) :
    ((∃ tail, call_openai (.exn msg) = "OpenAI Error: " ++ tail)
      ∧ (∃ a b, call_openai (.exn msg) = a ++ msg ++ b))
    ∧ ((∃ tail, call_openai (.resp status reason url text obody)
          = "OpenAI Error: " ++ tail)
      ∧ (∃ a b, call_openai (.resp status reason url text obody)
          = a ++ toString status ++ b))
    ∧ ((∃ tail, call_gemini (.exn msg) = "Gemini Exception: " ++ tail)
      ∧ (∃ a b, call_gemini (.exn msg) = a ++ msg ++ b))
    ∧ ((∃ tail, call_gemini (.resp status reason url text gbody)
          = "Gemini Error: " ++ tail)
      ∧ (∃ a b, call_gemini (.resp status reason url text gbody)
          = a ++ toString status ++ b)) := by
  have hoa : call_openai (.resp status reason url text obody)
      = "OpenAI Error: " ++ raiseForStatusMsg status reason url ++
          "\nResponse: <Response [" ++ toString status ++ "]>" := by
    simp [call_openai, h4, h6]
  have hne : status ≠ 200 := by omega
  have hge : call_gemini (.resp status reason url text gbody)
      = "Gemini Error: " ++ toString status ++ " " ++ reason ++
          "\nResponse: " ++ text := by
    simp [call_gemini, hne]
  refine ⟨⟨⟨msg ++ "\nResponse: None", rfl⟩,
      "OpenAI Error: ", "\nResponse: None", rfl⟩,
    ⟨⟨raiseForStatusMsg status reason url ++
        ("\nResponse: <Response [" ++ (toString status ++ "]>")), ?_⟩,
      "OpenAI Error: " ++ toString status ++
        (if status < 500 then " Client Error: " else " Server Error: ") ++
        reason ++ " for url: " ++ url ++ "\nResponse: <Response [",
      "]>", ?_⟩,
    ⟨⟨msg, rfl⟩, "Gemini Exception: ", "", ?_⟩,
    ⟨⟨toString status ++ " " ++ reason ++ "\nResponse: " ++ text, ?_⟩,
      "Gemini Error: ", " " ++ reason ++ "\nResponse: " ++ text, ?_⟩⟩
  · rw [hoa]
    simp [String.append_assoc]
  · rw [hoa]
    simp [raiseForStatusMsg, String.append_assoc]
  · simp [call_gemini, String.append_empty]
  · rw [hge]
    simp [String.append_assoc]
  · rw [hge]
    simp [String.append_assoc]

/-- Witness for C5 at a concrete mocked 500 response. -/
theorem adapter_error_strings_c5_witness :
    (∃ tail, call_openai
        (.resp 500 "Internal Server Error" "u" "body" none)
      = "OpenAI Error: " ++ tail)
    ∧ (∃ tail, call_gemini
        (.resp 500 "Internal Server Error" "u" "body" none)
      = "Gemini Error: " ++ tail) :=
  ⟨(adapter_error_strings_c5 500 (by decide) (by decide) "m"
      "Internal Server Error" "u" "body" none none).2.1.1,
   (adapter_error_strings_c5 500 (by decide) (by decide) "m"
      "Internal Server Error" "u" "body" none none).2.2.2.1⟩

/-- Claim C6: a status-200 OpenAI-style interaction with a well-formed body
makes `call_openai` return exactly the text at
`choices[0].message.content`; in particular the body
`{"choices":[{"message":{"content":"hi"}}]}` yields exactly `"hi"`. -/
theorem openai_success_extracts_content_c6 :
    (∀ (reason url text txt : String) (rest : List OAChoice),
      call_openai (.resp 200 reason url text
        (some ⟨some (⟨some ⟨some txt⟩⟩ :: rest)⟩)) = txt)
    ∧ call_openai (.resp 200 "OK" "u" "raw"
        (some ⟨some [⟨some ⟨some "hi"⟩⟩]⟩)) = "hi" :=
  ⟨fun _ _ _ _ _ => rfl, rfl⟩

/-- Claim C7 (counterexample): with `OPENAI_API_KEY` unset, the prompt
handler leaves the conversation empty - it does not append an assistant turn
carrying the missing-variable message, contrary to the claim. -/
theorem missing_key_no_assistant_turn_c7_cex :
    (handle_prompt "OpenAI" "OPENAI_API_KEY" none "hello" [] "reply").messages
      = []
    ∧ ¬ (∃ tn ∈ (handle_prompt "OpenAI" "OPENAI_API_KEY" none "hello" []
          "reply").messages,
        tn.role = "assistant"
        ∧ tn.content = missingKeyMsg "OpenAI" "OPENAI_API_KEY") := by
  refine ⟨rfl, ?_⟩
  rintro ⟨tn, hmem, -⟩
  simp [handle_prompt] at hmem

/-- Claim C7 as amended: with the selected provider's credential variable
unset (or empty), the missing credential is detected before any network call
(no HTTP request is issued), the user sees the error message naming the
required variable, and the conversation gains no turn at all - neither the
user prompt nor an assistant turn is appended. -/
theorem missing_key_behavior_c7 (provider env prompt resp : String)
    (msgs : List Turn) (apiKey : Option String)
    (h : apiKey = none ∨ apiKey = some "") :
    handle_prompt provider env apiKey prompt msgs resp
      = ⟨msgs, some (missingKeyMsg provider env), false⟩ := by
  simp only [handle_prompt, if_pos h]

/-- Witness for C7 (amended) with an unset `OPENAI_API_KEY`. -/
theorem missing_key_behavior_c7_witness :
    handle_prompt "OpenAI" "OPENAI_API_KEY" none "hello" [] "reply"
      = ⟨[], some (missingKeyMsg "OpenAI" "OPENAI_API_KEY"), false⟩ :=
  missing_key_behavior_c7 "OpenAI" "OPENAI_API_KEY" "hello" "reply" []
    none (Or.inl rfl)

/-- Claim C8 (counterexample): a malformed on-disk settings document makes
`load_config` raise `json.JSONDecodeError` - the load does not terminate
normally with a displayed string or fallback value, contrary to the claim
that every operation does so for every input. -/
theorem malformed_config_raises_c8_cex :
    load_config .malformed = .error .jsonDecodeError := rfl

/-- Claim C8 as amended: completion adapters return a string for every
failing interaction, a failed sweep merely leaves the cache unchanged, and
loads terminate normally when the document is absent (fallback default) or
well-formed; but a malformed on-disk settings or cache document makes the
load raise an uncaught exception instead of returning a fallback. -/
theorem degraded_failures_c8 :
    load_config .absent = .ok ⟨defaultSelectedModels⟩
    ∧ (∀ d, load_config (.doc d) = .ok d)
    ∧ load_config .malformed = .error .jsonDecodeError
    ∧ (∀ now, load_hf_provider_model_cache .malformed now
        = .error .jsonDecodeError)
    ∧ (∀ now, load_hf_provider_model_cache .absent now = .ok none)
    ∧ (∀ msg, call_openai (.exn msg)
        = "OpenAI Error: " ++ msg ++ "\nResponse: None")
    ∧ (∀ msg, call_gemini (.exn msg) = "Gemini Exception: " ++ msg)
    ∧ (∀ meta t cache msg,
        fetch_and_cache_hf_provider_models (.err msg) meta t cache = cache) :=
  ⟨rfl, fun _ => rfl, rfl, fun _ => rfl, fun _ => rfl, fun _ => rfl,
   fun _ => rfl, fun _ _ _ _ => rfl⟩

/-- Claim C9: with no settings document on disk, `load_config` returns the
hardcoded default document, which assigns a default model to each of the five
providers of the registry, including the HuggingFace entry and the
`HuggingFaceProvider` sub-provider key. -/
theorem default_config_covers_providers_c9 :
    load_config .absent = .ok ⟨defaultSelectedModels⟩
    ∧ defaultSelectedModels.lookup "OpenAI" = some "gpt-4.1-mini"
    ∧ defaultSelectedModels.lookup "Gemini" = some "gemini-2.0-flash"
    ∧ defaultSelectedModels.lookup "Anthropic"
        = some "claude-3-7-sonnet-20250219"
    ∧ defaultSelectedModels.lookup "Grok" = some "grok-3-latest"
    ∧ defaultSelectedModels.lookup "HuggingFace"
        = some "meta-llama/Meta-Llama-3-8B-Instruct"
    ∧ defaultSelectedModels.lookup "HuggingFaceProvider" = some "hf-inference"
    ∧ (PROVIDERS.all fun p => (defaultSelectedModels.lookup p.1).isSome)
        = true :=
  ⟨rfl, rfl, rfl, rfl, rfl, rfl, rfl, by decide⟩

/-- Claim C10: a fresh record whose pairs list is empty makes
`ensure_hf_provider_model_cache` return the empty list (not `None`) with no
sweep scheduled and the state unchanged, while `get_hf_provider_model_pairs`
treats that empty list as a miss and returns the static fallback pair. -/
theorem fresh_empty_cache_c10 (t now : Int) (n : Nat)
    (h : now - t < ttlSeconds) :
    ensure_hf_provider_model_cache ⟨.doc ⟨.val t, some []⟩, n⟩ now
      = .ok (some [], ⟨.doc ⟨.val t, some []⟩, n⟩)
    ∧ get_hf_provider_model_pairs ⟨.doc ⟨.val t, some []⟩, n⟩ now
      = .ok ([("hf-inference", "meta-llama/Meta-Llama-3-8B-Instruct")],
          ⟨.doc ⟨.val t, some []⟩, n⟩) := by
  have hload : load_hf_provider_model_cache (.doc ⟨.val t, some []⟩) now
      = .ok (some []) := by
    simp [load_hf_provider_model_cache, h]
  have hens : ensure_hf_provider_model_cache ⟨.doc ⟨.val t, some []⟩, n⟩ now
      = .ok (some [], ⟨.doc ⟨.val t, some []⟩, n⟩) := by
    simp [ensure_hf_provider_model_cache, hload]
  exact ⟨hens, by simp [get_hf_provider_model_pairs, hens]⟩

/-- Witness for C10 at a concrete fresh-but-empty record. -/
theorem fresh_empty_cache_c10_witness :
    get_hf_provider_model_pairs ⟨.doc ⟨.val 0, some []⟩, 0⟩ 100
      = .ok ([("hf-inference", "meta-llama/Meta-Llama-3-8B-Instruct")],
          ⟨.doc ⟨.val 0, some []⟩, 0⟩) :=
  (fresh_empty_cache_c10 0 100 0 (by decide)).2

end HydraGPT
